import Mathlib

/-!
Verification of the image ingestion, classification and staging pipeline
of `src/bot/features/image_handler.py`.

The Python code is shallowly embedded:
- byte buffers are `List Nat` (each entry a byte value),
- `pathlib.Path` objects are `PyPath` (an absolute flag plus the list of
  components kept after pathlib normalisation, which drops empty and `.`
  components but keeps `..`; `parent` and `==` are lexical, as in pathlib),
- the filesystem is an association list from resolved paths to file
  contents; `exists`, `unlink` and reads resolve `..` components the way
  the operating system does (symlinks are not modelled, and directory
  existence along a dotted path is not tracked — a path is considered to
  exist whenever its resolution is a stored file, which is conservative
  for every property proved below),
- `uuid.uuid4().hex` is a token parameter (always a 32-character lowercase
  hex string in Python; theorems that need this take it as a hypothesis),
- the deployment-dependent base directory `Path(__file__).parent^4` is a
  parameter `base`, so `TELEGRAM_IMAGE_TEMP_DIR base = /<base>/temp/images`,
- a possible `unlink` failure is an explicit boolean oracle, and the
  `try/except` of `cleanup_temp_file` is an explicit `Except` computation
  whose errors the wrapper catches.
-/

/-- A `pathlib.PurePosixPath`: the components surviving normalisation
(empty and `.` dropped, `..` kept) plus whether the path is absolute. -/
structure PyPath where
  absolute : Bool
  parts : List String
deriving DecidableEq

/-- Split a character list on `/`, like Python `s.split("/")`. -/
def splitSlash : List Char → List (List Char)
  | [] => [[]]
  | c :: rest =>
    let r := splitSlash rest
    if c = '/' then [] :: r
    else
      match r with
      | [] => [[c]]
      | h :: t => (c :: h) :: t

/-- `pathlib.Path(s)` for a POSIX path string. -/
def parsePath (s : String) : PyPath :=
  ⟨(match s.data with | '/' :: _ => true | _ => false),
   ((splitSlash s.data).map String.mk).filter (fun c => !(c == "") && !(c == "."))⟩

/-- `path.parent`: lexical, drops the last component, does not resolve `..`. -/
def pathParent (p : PyPath) : PyPath :=
  ⟨p.absolute, p.parts.dropLast⟩

/-- `dir / name` for a single component containing no separator. -/
def pathJoin (p : PyPath) (name : String) : PyPath :=
  ⟨p.absolute, p.parts ++ [name]⟩

/-- Interleave `/` between path components. -/
def interSlash : List String → List Char
  | [] => []
  | [p] => p.data
  | p :: q :: rest => p.data ++ '/' :: interSlash (q :: rest)

/-- `str(path)`. -/
def pathStr (p : PyPath) : String :=
  String.mk ((if p.absolute then ['/'] else []) ++ interSlash p.parts)

/-- Resolution of `..` components as the operating system performs it on a
symlink-free tree. -/
def resolveParts (ps : List String) : List String :=
  ps.foldl (fun acc c => if c = ".." then acc.dropLast else acc ++ [c]) []

/-- Resolve the `..` components of a path. -/
def resolvePath (p : PyPath) : PyPath :=
  ⟨p.absolute, resolveParts p.parts⟩

/-- `TELEGRAM_IMAGE_TEMP_DIR = Path(__file__).parent.parent.parent.parent
/ "temp" / "images"`, with the deployment-dependent prefix abstracted as
`base`. -/
def TELEGRAM_IMAGE_TEMP_DIR (base : List String) : PyPath :=
  ⟨true, base ++ ["temp", "images"]⟩

/-- The filesystem: stored files, keyed by resolved path. -/
abbrev FS := List (PyPath × List Nat)

/-- Raw lookup of a resolved key. -/
def fsLookup : FS → PyPath → Option (List Nat)
  | [], _ => none
  | (q, bs) :: rest, p => if p = q then some bs else fsLookup rest p

/-- Read the file a path denotes, resolving `..` first. -/
def fsRead (fs : FS) (p : PyPath) : Option (List Nat) :=
  fsLookup fs (resolvePath p)

/-- `path.exists()`. -/
def fsExists (fs : FS) (p : PyPath) : Bool :=
  (fsRead fs p).isSome

/-- `path.write_bytes(bs)` (creates or overwrites). -/
def fsWrite (fs : FS) (p : PyPath) (bs : List Nat) : FS :=
  (resolvePath p, bs) :: fs

/-- Remove every stored entry with the given resolved key. -/
def fsEraseR : FS → PyPath → FS
  | [], _ => []
  | (q, bs) :: rest, r => if q = r then fsEraseR rest r else (q, bs) :: fsEraseR rest r

/-- `path.unlink()`, resolving `..` first. -/
def fsErase (fs : FS) (p : PyPath) : FS :=
  fsEraseR fs (resolvePath p)

/-- Decidable sublist-of-consecutive-elements test: does `l` contain `sub`
as a contiguous run?  (Python `sub in l`.) -/
def listContains [BEq α] (l sub : List α) : Bool :=
  sub.isPrefixOf l ||
    match l with
    | [] => false
    | _ :: t => listContains t sub

/-- Python `sub in s` on strings. -/
def containsStr (s sub : String) : Bool :=
  listContains s.data sub.data

/-- Bytes of an ASCII string literal, for the magic-byte constants. -/
def asciiBytes (s : String) : List Nat :=
  s.data.map (fun c => c.toNat)

/-- Lowercase hexadecimal digits, the alphabet of `uuid.uuid4().hex`. -/
def isHexChar (c : Char) : Bool :=
  ("0123456789abcdef".data).contains c

/-- The base64 alphabet. -/
def base64Table : List Char :=
  "ABCDEFGHIJKLMNOPQRSTUVWXYZabcdefghijklmnopqrstuvwxyz0123456789+/".data

/-- Character of a 6-bit group. -/
def b64char (n : Nat) : Char :=
  base64Table.getD n 'A'

/-- Standard base64 of a byte list, three bytes to four characters with
`=` padding (`base64.b64encode(...).decode("utf-8")`). -/
def b64chunks : List Nat → List Char
  | [] => []
  | [a] => [b64char (a / 4), b64char (a % 4 * 16), '=', '=']
  | [a, b] => [b64char (a / 4), b64char (a % 4 * 16 + b / 16), b64char (b % 16 * 4), '=']
  | a :: b :: c :: rest =>
      b64char (a / 4) :: b64char (a % 4 * 16 + b / 16) ::
        b64char (b % 16 * 4 + c / 64) :: b64char (c % 64) :: b64chunks rest

/-- `base64.b64encode(image_bytes).decode("utf-8")`. -/
def base64Encode (bytes : List Nat) : String :=
  String.mk (b64chunks bytes)


/-! ## The embedded source functions of `ImageHandler` -/

/-- `ImageHandler._detect_image_type`: the classifier stub, always
`"screenshot"`. -/
def detect_image_type (_image_bytes : List Nat) : String :=
  "screenshot"

/-- `ImageHandler._detect_format`: magic-byte sniffing, checks applied in
the fixed source order with the first match winning. -/
def detect_format (image_bytes : List Nat) : String :=
  if [0x89, 0x50, 0x4E, 0x47].isPrefixOf image_bytes then "png"
  else if [0xFF, 0xD8, 0xFF].isPrefixOf image_bytes then "jpeg"
  else if (asciiBytes "GIF87a").isPrefixOf image_bytes
      || (asciiBytes "GIF89a").isPrefixOf image_bytes then "gif"
  else if (asciiBytes "RIFF").isPrefixOf image_bytes
      && listContains (image_bytes.take 12) (asciiBytes "WEBP") then "webp"
  else "unknown"

/-- `ImageHandler.validate_image`: size, then format, then minimum size. -/
def validate_image (image_bytes : List Nat) : Bool × Option String :=
  if image_bytes.length > 10 * 1024 * 1024 then
    (false, some "Image too large (max 10MB)")
  else if detect_format image_bytes = "unknown" then
    (false, some "Unsupported image format")
  else if image_bytes.length < 100 then
    (false, some "Invalid image data")
  else
    (true, none)

/-- `ImageHandler._save_to_temp_file`: build
`telegram_image_<uuid4().hex>.<ext>` inside `TELEGRAM_IMAGE_TEMP_DIR` and
write the bytes.  The `mkdir(parents=True, exist_ok=True)` call only
ensures the directory exists and is not tracked by the file map.  The
random token of `uuid.uuid4().hex` is the parameter `tok`. -/
def save_to_temp_file (base : List String) (tok : String) (fs : FS)
    (image_bytes : List Nat) (format : String) : PyPath × FS :=
  let extension := if format ≠ "unknown" then format else "png"
  let filename := "telegram_image_" ++ tok ++ "." ++ extension
  let file_path := pathJoin (TELEGRAM_IMAGE_TEMP_DIR base) filename
  (file_path, fsWrite fs file_path image_bytes)

/-- The `try` body of `ImageHandler.cleanup_temp_file`: `some result` when
the guarded branch returns, `none` when control falls through to the final
`return False`, and `Except.error` when `unlink` raises (the oracle
`unlinkErr` says whether it does). -/
def cleanup_temp_file_body (base : List String) (unlinkErr : Bool) (fs : FS)
    (file_path : String) : Except String (Option (Bool × FS)) :=
  let path := parsePath file_path
  if fsExists fs path = true ∧ pathParent path = TELEGRAM_IMAGE_TEMP_DIR base then
    if unlinkErr then Except.error "unlink failed"
    else Except.ok (some (true, fsErase fs path))
  else Except.ok none

/-- `ImageHandler.cleanup_temp_file`: the `except` clause catches every
error and the function then returns `False`; the filesystem is unchanged
on every `False` path. -/
def cleanup_temp_file (base : List String) (unlinkErr : Bool) (fs : FS)
    (file_path : String) : Bool × FS :=
  match cleanup_temp_file_body base unlinkErr fs file_path with
  | Except.ok (some r) => r
  | Except.ok none => (false, fs)
  | Except.error _ => (false, fs)

/-! ## Prompt templates

The Python f-string templates, split as `t1 ++ str(file_path) ++ t2`; the
apostrophe of the source text is written `\x27`. -/

/-- Leading text of the screenshot template, up to the interpolated path. -/
def screenshot_t1 : String :=
  "I\x27m sharing a screenshot with you. The image is saved at: "

/-- Trailing text of the screenshot template, after the interpolated path. -/
def screenshot_t2 : String :=
  "\n\nIMPORTANT: Use the Read tool to view the image file before analyzing.\n\nPlease analyze the screenshot and help me with:\n1. Identifying what application or website this is from\n2. Understanding the UI elements and their purpose\n3. Any issues or improvements you notice\n4. Answering any specific questions I have\n\n"

/-- The `base_prompt` local of `_create_screenshot_prompt`. -/
def screenshot_base (fp : String) : String :=
  screenshot_t1 ++ fp ++ screenshot_t2

/-- Leading text of the diagram template. -/
def diagram_t1 : String :=
  "I\x27m sharing a diagram with you. The image is saved at: "

/-- Trailing text of the diagram template. -/
def diagram_t2 : String :=
  "\n\nIMPORTANT: Use the Read tool to view the image file before analyzing.\n\nPlease help me:\n1. Understand the components and their relationships\n2. Identify the type of diagram (flowchart, architecture, etc.)\n3. Explain any technical concepts shown\n4. Suggest improvements or clarifications\n\n"

/-- The `base_prompt` local of `_create_diagram_prompt`. -/
def diagram_base (fp : String) : String :=
  diagram_t1 ++ fp ++ diagram_t2

/-- Leading text of the UI-mockup template. -/
def ui_t1 : String :=
  "I\x27m sharing a UI mockup with you. The image is saved at: "

/-- Trailing text of the UI-mockup template. -/
def ui_t2 : String :=
  "\n\nIMPORTANT: Use the Read tool to view the image file before analyzing.\n\nPlease analyze:\n1. The layout and visual hierarchy\n2. User experience considerations\n3. Accessibility aspects\n4. Implementation suggestions\n5. Any potential improvements\n\n"

/-- The `base_prompt` local of `_create_ui_prompt`. -/
def ui_base (fp : String) : String :=
  ui_t1 ++ fp ++ ui_t2

/-- Leading text of the generic template. -/
def generic_t1 : String :=
  "I\x27m sharing an image with you. The image is saved at: "

/-- Trailing text of the generic template. -/
def generic_t2 : String :=
  "\n\nIMPORTANT: Use the Read tool to view the image file before analyzing.\n\nPlease analyze it and provide relevant insights.\n\n"

/-- The `base_prompt` local of `_create_generic_prompt`. -/
def generic_base (fp : String) : String :=
  generic_t1 ++ fp ++ generic_t2

/-- `ImageHandler._create_screenshot_prompt`; `if caption:` is Python
truthiness, so an empty caption appends nothing. -/
def create_screenshot_prompt (caption : Option String) (fp : String) : String :=
  match caption with
  | some c => if c = "" then screenshot_base fp
              else screenshot_base fp ++ "Specific request: " ++ c
  | none => screenshot_base fp

/-- `ImageHandler._create_diagram_prompt`. -/
def create_diagram_prompt (caption : Option String) (fp : String) : String :=
  match caption with
  | some c => if c = "" then diagram_base fp
              else diagram_base fp ++ "Specific request: " ++ c
  | none => diagram_base fp

/-- `ImageHandler._create_ui_prompt`. -/
def create_ui_prompt (caption : Option String) (fp : String) : String :=
  match caption with
  | some c => if c = "" then ui_base fp
              else ui_base fp ++ "Specific request: " ++ c
  | none => ui_base fp

/-- `ImageHandler._create_generic_prompt`; the marker here is `Context:`. -/
def create_generic_prompt (caption : Option String) (fp : String) : String :=
  match caption with
  | some c => if c = "" then generic_base fp
              else generic_base fp ++ "Context: " ++ c
  | none => generic_base fp

/-- The `if/elif` prompt dispatch of `process_image` (lines 65-72). -/
def create_prompt (image_type : String) (caption : Option String) (fp : String) : String :=
  if image_type = "screenshot" then create_screenshot_prompt caption fp
  else if image_type = "diagram" then create_diagram_prompt caption fp
  else if image_type = "ui_mockup" then create_ui_prompt caption fp
  else create_generic_prompt caption fp

/-- `ProcessedImage`, with the two-key `metadata` dict flattened into the
fields `metadata_format` and `metadata_has_caption`. -/
structure ProcessedImage where
  prompt : String
  image_type : String
  base64_data : String
  size : Nat
  file_path : Option String
  metadata_format : String
  metadata_has_caption : Bool
deriving DecidableEq

/-- `ImageHandler.process_image` after the download step: the downloaded
buffer is the argument `image_bytes`, the caption the argument `caption`.
Exactly as in the source, the buffer is typed, format-sniffed, staged,
turned into a prompt, base64-encoded and packaged — `validate_image` is
not called anywhere on this path. -/
def process_image (base : List String) (tok : String) (fs : FS)
    (image_bytes : List Nat) (caption : Option String) : ProcessedImage × FS :=
  let image_type := detect_image_type image_bytes
  let image_format := detect_format image_bytes
  let staged := save_to_temp_file base tok fs image_bytes image_format
  let prompt := create_prompt image_type caption (pathStr staged.fst)
  let base64_image := base64Encode image_bytes
  (⟨prompt, image_type, base64_image, image_bytes.length,
    some (pathStr staged.fst), image_format, caption.isSome⟩, staged.snd)


/-! ## Helper lemmas -/

theorem isPrefixOf_self_append [BEq α] [LawfulBEq α] (l t : List α) :
    l.isPrefixOf (l ++ t) = true := by
  induction l with
  | nil => simp [List.isPrefixOf]
  | cons a as ih => simp [List.isPrefixOf, ih]

theorem listContains_of_pref [BEq α] (l sub : List α)
    (h : sub.isPrefixOf l = true) : listContains l sub = true := by
  rw [listContains.eq_def, h]
  simp

theorem listContains_cons [BEq α] (a : α) (l sub : List α)
    (h : listContains l sub = true) : listContains (a :: l) sub = true := by
  rw [listContains.eq_def]
  simp [h]

theorem listContains_append_left [BEq α] (pre l sub : List α)
    (h : listContains l sub = true) : listContains (pre ++ l) sub = true := by
  induction pre with
  | nil => simpa using h
  | cons a as ih => exact listContains_cons a (as ++ l) sub ih

theorem listContains_mid [BEq α] [LawfulBEq α] (a sub b : List α) :
    listContains (a ++ (sub ++ b)) sub = true :=
  listContains_append_left a (sub ++ b) sub
    (listContains_of_pref (sub ++ b) sub (isPrefixOf_self_append sub b))

theorem listContains_nil_sub [BEq α] (l : List α) : listContains l [] = true := by
  rw [listContains.eq_def]
  simp [List.isPrefixOf]

/-- Occurrence of `sub` between `a` and `b` in a string. -/
theorem containsStr_mid (a sub b : String) : containsStr (a ++ sub ++ b) sub = true := by
  have h : (a ++ sub ++ b).data = a.data ++ (sub.data ++ b.data) := by
    simp
  rw [containsStr, h]
  exact listContains_mid a.data sub.data b.data

/-- Occurrence of `sub` at the end of a string. -/
theorem containsStr_end (a sub : String) : containsStr (a ++ sub) sub = true := by
  have h : (a ++ sub).data = a.data ++ (sub.data ++ []) := by
    simp
  rw [containsStr, h]
  exact listContains_mid a.data sub.data []

/-- The empty string occurs in every string. -/
theorem containsStr_empty (s : String) : containsStr s "" = true :=
  listContains_nil_sub s.data

/-- A string with a nonempty prefix is nonempty. -/
theorem append_ne_empty (x y : String) (h : x ≠ "") : x ++ y ≠ "" := by
  intro hc
  apply h
  apply String.ext
  have hd := congrArg String.data hc
  simp at hd
  simpa using hd.1

/-- A prefix check only looks at the first `n` elements once `n` bounds the
pattern length. -/
theorem isPrefixOf_take [BEq α] (l : List α) :
    ∀ (b : List α) (n : Nat), l.length ≤ n →
      l.isPrefixOf b = l.isPrefixOf (b.take n) := by
  induction l with
  | nil => intro b n h; simp [List.isPrefixOf]
  | cons a as ih =>
    intro b n h
    cases b with
    | nil => simp
    | cons x bs =>
      cases n with
      | zero => simp at h
      | succ m =>
        simp only [List.take, List.isPrefixOf]
        rw [ih bs m (by simpa using h)]

/-- C3: format detection is total over every byte buffer with the fixed
rule order (PNG, JPEG, GIF87a/GIF89a, RIFF-with-WEBP-in-12, unknown) and
first match winning; the result depends only on the first 12 bytes, and
every buffer starting with the PNG signature maps to `"png"` whatever its
trailing content. -/
theorem format_detection_spec :
    (∀ b : List Nat, detect_format b = "png" ∨ detect_format b = "jpeg" ∨
        detect_format b = "gif" ∨ detect_format b = "webp" ∨ detect_format b = "unknown")
    ∧ (∀ rest : List Nat, detect_format ([0x89, 0x50, 0x4E, 0x47] ++ rest) = "png")
    ∧ (∀ b : List Nat, [0x89, 0x50, 0x4E, 0x47].isPrefixOf b = true →
        detect_format b = "png")
    ∧ (∀ b : List Nat, [0x89, 0x50, 0x4E, 0x47].isPrefixOf b = false →
        [0xFF, 0xD8, 0xFF].isPrefixOf b = true → detect_format b = "jpeg")
    ∧ (∀ b : List Nat, [0x89, 0x50, 0x4E, 0x47].isPrefixOf b = false →
        [0xFF, 0xD8, 0xFF].isPrefixOf b = false →
        ((asciiBytes "GIF87a").isPrefixOf b || (asciiBytes "GIF89a").isPrefixOf b) = true →
        detect_format b = "gif")
    ∧ (∀ b : List Nat, [0x89, 0x50, 0x4E, 0x47].isPrefixOf b = false →
        [0xFF, 0xD8, 0xFF].isPrefixOf b = false →
        ((asciiBytes "GIF87a").isPrefixOf b || (asciiBytes "GIF89a").isPrefixOf b) = false →
        ((asciiBytes "RIFF").isPrefixOf b && listContains (b.take 12) (asciiBytes "WEBP")) = true →
        detect_format b = "webp")
    ∧ (∀ b : List Nat, [0x89, 0x50, 0x4E, 0x47].isPrefixOf b = false →
        [0xFF, 0xD8, 0xFF].isPrefixOf b = false →
        ((asciiBytes "GIF87a").isPrefixOf b || (asciiBytes "GIF89a").isPrefixOf b) = false →
        ((asciiBytes "RIFF").isPrefixOf b && listContains (b.take 12) (asciiBytes "WEBP")) = false →
        detect_format b = "unknown")
    ∧ (∀ b₁ b₂ : List Nat, b₁.take 12 = b₂.take 12 →
        detect_format b₁ = detect_format b₂) := by
  refine ⟨?_, ?_, ?_, ?_, ?_, ?_, ?_, ?_⟩
  · intro b
    unfold detect_format
    split
    · tauto
    · split
      · tauto
      · split
        · tauto
        · split
          · tauto
          · tauto
  · intro rest
    have h : [0x89, 0x50, 0x4E, 0x47].isPrefixOf ([0x89, 0x50, 0x4E, 0x47] ++ rest) = true :=
      isPrefixOf_self_append _ _
    simp [detect_format, h]
  · intro b h
    simp [detect_format, h]
  · intro b h1 h2
    simp [detect_format, h1, h2]
  · intro b h1 h2 h3
    simp [detect_format, h1, h2, h3]
  · intro b h1 h2 h3 h4
    simp [detect_format, h1, h2, h3, h4]
  · intro b h1 h2 h3 h4
    simp [detect_format, h1, h2, h3, h4]
  · intro b₁ b₂ h
    have e1 : [0x89, 0x50, 0x4E, 0x47].isPrefixOf b₁ = [0x89, 0x50, 0x4E, 0x47].isPrefixOf b₂ := by
      rw [isPrefixOf_take _ b₁ 12 (by decide), isPrefixOf_take _ b₂ 12 (by decide), h]
    have e2 : [0xFF, 0xD8, 0xFF].isPrefixOf b₁ = [0xFF, 0xD8, 0xFF].isPrefixOf b₂ := by
      rw [isPrefixOf_take _ b₁ 12 (by decide), isPrefixOf_take _ b₂ 12 (by decide), h]
    have e3 : (asciiBytes "GIF87a").isPrefixOf b₁ = (asciiBytes "GIF87a").isPrefixOf b₂ := by
      rw [isPrefixOf_take _ b₁ 12 (by decide), isPrefixOf_take _ b₂ 12 (by decide), h]
    have e4 : (asciiBytes "GIF89a").isPrefixOf b₁ = (asciiBytes "GIF89a").isPrefixOf b₂ := by
      rw [isPrefixOf_take _ b₁ 12 (by decide), isPrefixOf_take _ b₂ 12 (by decide), h]
    have e5 : (asciiBytes "RIFF").isPrefixOf b₁ = (asciiBytes "RIFF").isPrefixOf b₂ := by
      rw [isPrefixOf_take _ b₁ 12 (by decide), isPrefixOf_take _ b₂ 12 (by decide), h]
    simp only [detect_format, e1, e2, e3, e4, e5, h]

/-- Witness for C3: two buffers agreeing on their first 12 bytes but
differing later get the same format, evaluated concretely. -/
theorem format_detection_spec_witness :
    ([0x89, 0x50, 0x4E, 0x47] ++ List.replicate 8 (0 : Nat)).take 12
      = ([0x89, 0x50, 0x4E, 0x47] ++ List.replicate 8 (0 : Nat) ++ [99]).take 12
    ∧ detect_format ([0x89, 0x50, 0x4E, 0x47] ++ List.replicate 8 (0 : Nat))
      = detect_format ([0x89, 0x50, 0x4E, 0x47] ++ List.replicate 8 (0 : Nat) ++ [99]) :=
  ⟨by decide, format_detection_spec.2.2.2.2.2.2.2 _ _ (by decide)⟩

/-- C4: `validate_image` applies size, then format, then minimum length,
first failure winning, with the source reason strings standing for the
reasons named in the specification ("too large" is the source string
"Image too large (max 10MB)", "unsupported format" is "Unsupported image
format", "invalid image data" is "Invalid image data").  In particular a
too-large buffer of unknown format reports the size reason. -/
theorem validate_image_spec :
    (∀ b : List Nat, b.length > 10485760 →
        validate_image b = (false, some "Image too large (max 10MB)"))
    ∧ (∀ b : List Nat, b.length ≤ 10485760 → detect_format b = "unknown" →
        validate_image b = (false, some "Unsupported image format"))
    ∧ (∀ b : List Nat, b.length ≤ 10485760 → detect_format b ≠ "unknown" →
        b.length < 100 → validate_image b = (false, some "Invalid image data"))
    ∧ (∀ b : List Nat, b.length ≤ 10485760 → detect_format b ≠ "unknown" →
        100 ≤ b.length → validate_image b = (true, none)) := by
  refine ⟨?_, ?_, ?_, ?_⟩
  · intro b h
    have h' : b.length > 10 * 1024 * 1024 := by omega
    simp [validate_image, h']
  · intro b h1 h2
    have h1' : ¬ b.length > 10 * 1024 * 1024 := by omega
    simp [validate_image, h1', h2]
  · intro b h1 h2 h3
    have h1' : ¬ b.length > 10 * 1024 * 1024 := by omega
    simp [validate_image, h1', h2, h3]
  · intro b h1 h2 h3
    have h1' : ¬ b.length > 10 * 1024 * 1024 := by omega
    have h3' : ¬ b.length < 100 := by omega
    simp [validate_image, h1', h2, h3']

/-- Witness for C4: the four rules evaluated at the specification's test
vectors — an oversized buffer, a 200-byte unknown-signature buffer, a
50-byte PNG-prefixed buffer, and a 100-byte PNG-prefixed buffer. -/
theorem validate_image_spec_witness :
    ((List.replicate 10485761 (0 : Nat)).length > 10485760
      ∧ validate_image (List.replicate 10485761 (0 : Nat))
          = (false, some "Image too large (max 10MB)"))
    ∧ ((List.replicate 200 (0 : Nat)).length ≤ 10485760
      ∧ detect_format (List.replicate 200 (0 : Nat)) = "unknown"
      ∧ validate_image (List.replicate 200 (0 : Nat))
          = (false, some "Unsupported image format"))
    ∧ (([0x89, 0x50, 0x4E, 0x47] ++ List.replicate 46 (0 : Nat)).length < 100
      ∧ validate_image ([0x89, 0x50, 0x4E, 0x47] ++ List.replicate 46 (0 : Nat))
          = (false, some "Invalid image data"))
    ∧ validate_image ([0x89, 0x50, 0x4E, 0x47] ++ List.replicate 96 (0 : Nat))
        = (true, none) := by
  have hbig : (List.replicate 10485761 (0 : Nat)).length > 10485760 := by
    simp only [List.length_replicate]
    omega
  have h200 : (List.replicate 200 (0 : Nat)).length ≤ 10485760 := by
    simp only [List.length_replicate]
    omega
  refine ⟨⟨hbig, validate_image_spec.1 _ hbig⟩,
          ⟨h200, by decide, validate_image_spec.2.1 _ h200 (by decide)⟩,
          ⟨by decide, validate_image_spec.2.2.1 _ (by decide) (by decide) (by decide)⟩,
          validate_image_spec.2.2.2 _ (by decide) (by decide) (by decide)⟩

/-- C2: `cleanup_temp_file` returns `true` (and then deletes exactly the
named file) precisely when the path exists, its lexical parent is exactly
the managed root, and `unlink` does not fail; on every `false` outcome —
nonexistent path, parent outside the root (including `..`-crafted paths),
or a deletion error, which the `except` clause converts to `false` rather
than raising — the filesystem is unchanged. -/
theorem cleanup_confinement (base : List String) (unlinkErr : Bool) (fs : FS) (p : String) :
    ((cleanup_temp_file base unlinkErr fs p).fst = true ↔
      fsExists fs (parsePath p) = true
        ∧ pathParent (parsePath p) = TELEGRAM_IMAGE_TEMP_DIR base
        ∧ unlinkErr = false)
    ∧ ((cleanup_temp_file base unlinkErr fs p).fst = true →
        (cleanup_temp_file base unlinkErr fs p).snd = fsErase fs (parsePath p))
    ∧ ((cleanup_temp_file base unlinkErr fs p).fst = false →
        (cleanup_temp_file base unlinkErr fs p).snd = fs) := by
  by_cases hc : fsExists fs (parsePath p) = true
      ∧ pathParent (parsePath p) = TELEGRAM_IMAGE_TEMP_DIR base
  · cases unlinkErr with
    | true =>
      simp [cleanup_temp_file, cleanup_temp_file_body, hc]
    | false =>
      simp [cleanup_temp_file, cleanup_temp_file_body, hc]
  · cases unlinkErr with
    | true =>
      simp only [cleanup_temp_file, cleanup_temp_file_body, if_neg hc]
      simp
    | false =>
      simp only [cleanup_temp_file, cleanup_temp_file_body, if_neg hc]
      simp
      all_goals tauto

/-- Witness for C2: a real temp file is deleted (result `true`), evaluated
at a concrete filesystem. -/
theorem cleanup_confinement_witness :
    (cleanup_temp_file ["srv", "bot"] false
        [(⟨true, ["srv", "bot", "temp", "images", "f.png"]⟩, [1, 2, 3])]
        "/srv/bot/temp/images/f.png").fst = true :=
  (cleanup_confinement ["srv", "bot"] false
      [(⟨true, ["srv", "bot", "temp", "images", "f.png"]⟩, [1, 2, 3])]
      "/srv/bot/temp/images/f.png").1.mpr ⟨by decide, by decide, rfl⟩

/-- A path whose lexical parent is `d` is `d` extended by its last
component. -/
theorem eq_pathJoin_of_parent (q d : PyPath) (h : pathParent q = d)
    (hne : q.parts ≠ []) : q = pathJoin d (q.parts.getLast hne) := by
  cases q with
  | mk abs parts =>
    cases d with
    | mk dabs dparts =>
      simp only [pathParent, PyPath.mk.injEq] at h
      obtain ⟨h1, h2⟩ := h
      simp only [pathJoin, PyPath.mk.injEq]
      refine ⟨h1, ?_⟩
      rw [← h2]
      exact (List.dropLast_append_getLast hne).symm

/-- C10: the confinement check is lexical — whenever the unresolved parent
of the path differs textually from the managed root, `cleanup_temp_file`
returns `false` and deletes nothing, even when the path resolves to a file
directly inside the root (the concrete `<root>/sub/../f.png` case); and a
`true` result is only ever possible for a path that is literally a direct
child of the root. -/
theorem cleanup_lexical_confinement (base : List String) (unlinkErr : Bool) (fs : FS) (p : String) :
    (pathParent (parsePath p) ≠ TELEGRAM_IMAGE_TEMP_DIR base →
      cleanup_temp_file base unlinkErr fs p = (false, fs))
    ∧ ((cleanup_temp_file base unlinkErr fs p).fst = true →
        ∃ name, parsePath p = pathJoin (TELEGRAM_IMAGE_TEMP_DIR base) name)
    ∧ (fsExists [(⟨true, ["srv", "bot", "temp", "images", "f.png"]⟩, [1, 2, 3])]
        (parsePath "/srv/bot/temp/images/sub/../f.png") = true
      ∧ cleanup_temp_file ["srv", "bot"] false
          [(⟨true, ["srv", "bot", "temp", "images", "f.png"]⟩, [1, 2, 3])]
          "/srv/bot/temp/images/sub/../f.png"
        = (false, [(⟨true, ["srv", "bot", "temp", "images", "f.png"]⟩, [1, 2, 3])])) := by
  refine ⟨?_, ?_, by decide, by decide⟩
  · intro h
    simp [cleanup_temp_file, cleanup_temp_file_body, h]
  · intro h
    by_cases hc : fsExists fs (parsePath p) = true
        ∧ pathParent (parsePath p) = TELEGRAM_IMAGE_TEMP_DIR base
    · obtain ⟨-, hpar⟩ := hc
      have hne : (parsePath p).parts ≠ [] := by
        intro h0
        have hparts := congrArg PyPath.parts hpar
        simp [pathParent, h0, TELEGRAM_IMAGE_TEMP_DIR] at hparts
      exact ⟨(parsePath p).parts.getLast hne,
        eq_pathJoin_of_parent (parsePath p) (TELEGRAM_IMAGE_TEMP_DIR base) hpar hne⟩
    · cases unlinkErr with
      | true => simp [cleanup_temp_file, cleanup_temp_file_body, hc] at h
      | false => simp [cleanup_temp_file, cleanup_temp_file_body, hc] at h

/-- Witness for C10: a path outside the root is refused, evaluated
concretely. -/
theorem cleanup_lexical_confinement_witness :
    pathParent (parsePath "/etc/passwd") ≠ TELEGRAM_IMAGE_TEMP_DIR ["srv", "bot"]
    ∧ cleanup_temp_file ["srv", "bot"] false [] "/etc/passwd" = (false, []) :=
  ⟨by decide,
   (cleanup_lexical_confinement ["srv", "bot"] false [] "/etc/passwd").1 (by decide)⟩

/-- The parent of a single-component join is the directory itself. -/
theorem pathParent_pathJoin (p : PyPath) (name : String) :
    pathParent (pathJoin p name) = p := by
  cases p with
  | mk abs parts => simp [pathParent, pathJoin]

/-- C5: for every buffer and every format the sniffer can produce, the
staged path is a direct child of the single managed root, and its filename
is the fixed prefix `telegram_image_`, a 32-hex-character token, a dot and
the extension — the format itself when known, `png` when unknown. -/
theorem staging_layout (base : List String) (tok : String) (fs : FS)
    (bytes : List Nat) (format : String)
    (hfmt : format ∈ (["png", "jpeg", "gif", "webp", "unknown"] : List String))
    (htok : tok.length = 32 ∧ tok.data.all isHexChar = true) :
    pathParent (save_to_temp_file base tok fs bytes format).fst
      = TELEGRAM_IMAGE_TEMP_DIR base
    ∧ ∃ name ext,
        (save_to_temp_file base tok fs bytes format).fst
          = pathJoin (TELEGRAM_IMAGE_TEMP_DIR base) name
        ∧ name = "telegram_image_" ++ tok ++ "." ++ ext
        ∧ tok.length = 32
        ∧ tok.data.all isHexChar = true
        ∧ ext = (if format ≠ "unknown" then format else "png")
        ∧ ext ∈ (["png", "jpeg", "gif", "webp"] : List String) := by
  constructor
  · exact pathParent_pathJoin _ _
  · refine ⟨"telegram_image_" ++ tok ++ "."
        ++ (if format ≠ "unknown" then format else "png"),
      (if format ≠ "unknown" then format else "png"),
      rfl, rfl, htok.1, htok.2, rfl, ?_⟩
    fin_cases hfmt <;> simp

/-- Witness for C5: the layout of a concrete staging call. -/
theorem staging_layout_witness :
    ("png" ∈ (["png", "jpeg", "gif", "webp", "unknown"] : List String))
    ∧ ("0123456789abcdef0123456789abcdef".length = 32
        ∧ "0123456789abcdef0123456789abcdef".data.all isHexChar = true)
    ∧ pathParent (save_to_temp_file ["srv", "bot"] "0123456789abcdef0123456789abcdef"
        [] [1, 2] "png").fst = TELEGRAM_IMAGE_TEMP_DIR ["srv", "bot"] :=
  ⟨by decide, ⟨by decide, by decide⟩,
   (staging_layout ["srv", "bot"] "0123456789abcdef0123456789abcdef" [] [1, 2] "png"
      (by decide) ⟨by decide, by decide⟩).1⟩

/-- C8: staging writes the buffer verbatim — reading the returned path
back from the post-staging filesystem yields exactly the input bytes. -/
theorem staging_roundtrip (base : List String) (tok : String) (fs : FS)
    (bytes : List Nat) (format : String)
    (_hfmt : format ∈ (["png", "jpeg", "gif", "webp", "unknown"] : List String)) :
    fsRead (save_to_temp_file base tok fs bytes format).snd
      (save_to_temp_file base tok fs bytes format).fst = some bytes := by
  simp [save_to_temp_file, fsRead, fsWrite, fsLookup]

/-- Witness for C8: a concrete round-trip. -/
theorem staging_roundtrip_witness :
    ("jpeg" ∈ (["png", "jpeg", "gif", "webp", "unknown"] : List String))
    ∧ fsRead (save_to_temp_file ["srv", "bot"] "00ff" [] [9, 8, 7] "jpeg").snd
        (save_to_temp_file ["srv", "bot"] "00ff" [] [9, 8, 7] "jpeg").fst
      = some [9, 8, 7] :=
  ⟨by decide, staging_roundtrip ["srv", "bot"] "00ff" [] [9, 8, 7] "jpeg" (by decide)⟩

/-- The common shape of the four prompt creators: leading text, the
interpolated path, trailing text, and — only for a truthy caption — the
marker and the caption. -/
def tmplRender (t1 t2 mark fp : String) (caption : Option String) : String :=
  match caption with
  | some c => if c = "" then t1 ++ fp ++ t2 else t1 ++ fp ++ t2 ++ mark ++ c
  | none => t1 ++ fp ++ t2

theorem create_screenshot_prompt_eq (caption : Option String) (fp : String) :
    create_screenshot_prompt caption fp
      = tmplRender screenshot_t1 screenshot_t2 "Specific request: " fp caption := by
  cases caption <;> rfl

theorem create_diagram_prompt_eq (caption : Option String) (fp : String) :
    create_diagram_prompt caption fp
      = tmplRender diagram_t1 diagram_t2 "Specific request: " fp caption := by
  cases caption <;> rfl

theorem create_ui_prompt_eq (caption : Option String) (fp : String) :
    create_ui_prompt caption fp
      = tmplRender ui_t1 ui_t2 "Specific request: " fp caption := by
  cases caption <;> rfl

theorem create_generic_prompt_eq (caption : Option String) (fp : String) :
    create_generic_prompt caption fp
      = tmplRender generic_t1 generic_t2 "Context: " fp caption := by
  cases caption <;> rfl

theorem tmplRender_props (t1 t2 mark fp : String) (caption : Option String)
    (h1 : t1 ≠ "") :
    tmplRender t1 t2 mark fp caption ≠ ""
    ∧ containsStr (tmplRender t1 t2 mark fp caption) fp = true
    ∧ ∀ c, caption = some c → containsStr (tmplRender t1 t2 mark fp caption) c = true := by
  cases caption with
  | none =>
    refine ⟨?_, ?_, ?_⟩
    · exact append_ne_empty (t1 ++ fp) t2 (append_ne_empty t1 fp h1)
    · exact containsStr_mid t1 fp t2
    · intro c hc
      exact Option.noConfusion hc
  | some c0 =>
    by_cases h0 : c0 = ""
    · simp only [tmplRender, if_pos h0]
      refine ⟨?_, ?_, ?_⟩
      · exact append_ne_empty (t1 ++ fp) t2 (append_ne_empty t1 fp h1)
      · exact containsStr_mid t1 fp t2
      · intro c hc
        have : c = c0 := by injection hc.symm
        rw [this, h0]
        exact containsStr_empty _
    · simp only [tmplRender, if_neg h0]
      refine ⟨?_, ?_, ?_⟩
      · exact append_ne_empty _ c0
          (append_ne_empty _ mark
            (append_ne_empty (t1 ++ fp) t2 (append_ne_empty t1 fp h1)))
      · have he : t1 ++ fp ++ t2 ++ mark ++ c0 = t1 ++ fp ++ (t2 ++ mark ++ c0) := by
          apply String.ext
          simp
        rw [he]
        exact containsStr_mid t1 fp (t2 ++ mark ++ c0)
      · intro c hc
        have : c = c0 := by injection hc.symm
        rw [this]
        exact containsStr_end _ c0

/-- C6: for every category, caption and staged path string, the composed
prompt is non-empty, contains the staged path string verbatim, and — when
a caption is supplied — contains the caption text verbatim. -/
theorem prompt_contains_path_and_caption (itype : String) (caption : Option String)
    (fp : String) :
    create_prompt itype caption fp ≠ ""
    ∧ containsStr (create_prompt itype caption fp) fp = true
    ∧ ∀ c, caption = some c → containsStr (create_prompt itype caption fp) c = true := by
  unfold create_prompt
  split_ifs
  · rw [create_screenshot_prompt_eq]
    exact tmplRender_props _ _ _ fp caption (by decide)
  · rw [create_diagram_prompt_eq]
    exact tmplRender_props _ _ _ fp caption (by decide)
  · rw [create_ui_prompt_eq]
    exact tmplRender_props _ _ _ fp caption (by decide)
  · rw [create_generic_prompt_eq]
    exact tmplRender_props _ _ _ fp caption (by decide)

/-- Witness for C6: a concrete prompt contains its concrete path and
caption. -/
theorem prompt_contains_path_and_caption_witness :
    containsStr (create_prompt "screenshot" (some "what is this") "/srv/x.png")
      "what is this" = true
    ∧ containsStr (create_prompt "screenshot" (some "what is this") "/srv/x.png")
      "/srv/x.png" = true :=
  ⟨(prompt_contains_path_and_caption "screenshot" (some "what is this") "/srv/x.png").2.2
      "what is this" rfl,
   (prompt_contains_path_and_caption "screenshot" (some "what is this") "/srv/x.png").2.1⟩

/-- The caption-free prompt of a category: exactly the category's base
template. -/
def prompt_base (itype fp : String) : String :=
  if itype = "screenshot" then screenshot_base fp
  else if itype = "diagram" then diagram_base fp
  else if itype = "ui_mockup" then ui_base fp
  else generic_base fp

/-- The marker each category places before an appended caption. -/
def prompt_marker (itype : String) : String :=
  if itype = "screenshot" then "Specific request: "
  else if itype = "diagram" then "Specific request: "
  else if itype = "ui_mockup" then "Specific request: "
  else "Context: "

set_option maxRecDepth 100000 in
/-- Counterexample to C7 as stated: with no caption the composer appends
nothing at all — the caption-free screenshot prompt is the exact prefix of
the captioned one, and no category-appropriate default ask such as
"describe what you see" or a phrase starting "explain the diagram" occurs
in the caption-free prompt of its category. -/
theorem prompt_no_default_ask :
    create_screenshot_prompt none "/srv/bot/temp/images/telegram_image_0.png"
        ++ "Specific request: hi"
      = create_screenshot_prompt (some "hi") "/srv/bot/temp/images/telegram_image_0.png"
    ∧ containsStr (create_screenshot_prompt none "/srv/bot/temp/images/telegram_image_0.png")
        "describe what you see" = false
    ∧ containsStr (create_diagram_prompt none "/srv/bot/temp/images/telegram_image_0.png")
        "explain the diagram" = false := by
  refine ⟨by decide, by decide, by decide⟩

/-- C7 (amended): when no caption is present — or the caption is the empty
string, which Python truthiness treats the same — the composer appends
nothing and returns exactly the category's base template; when a non-empty
caption is present it appends the caption verbatim after the category's
fixed marker (`Specific request: `, or `Context: ` for the generic
category). -/
theorem prompt_caption_append (itype fp c : String) :
    create_prompt itype none fp = prompt_base itype fp
    ∧ create_prompt itype (some "") fp = prompt_base itype fp
    ∧ (c ≠ "" → create_prompt itype (some c) fp
        = prompt_base itype fp ++ prompt_marker itype ++ c) := by
  unfold create_prompt prompt_base prompt_marker
  split_ifs <;>
    refine ⟨rfl, rfl, fun hc => ?_⟩ <;>
    simp [create_screenshot_prompt, create_diagram_prompt, create_ui_prompt,
      create_generic_prompt, hc]

/-- Witness for the amended C7: a concrete non-empty caption is appended
after the marker. -/
theorem prompt_caption_append_witness :
    ("hi" : String) ≠ ""
    ∧ create_prompt "diagram" (some "hi") "/x.png"
        = prompt_base "diagram" "/x.png" ++ prompt_marker "diagram" ++ "hi" :=
  ⟨by decide, (prompt_caption_append "diagram" "/x.png" "hi").2.2 (by decide)⟩

set_option maxRecDepth 100000 in
/-- C9: with a caption equal to the empty string, the packaged result
reports `has_caption = true` (presence is `caption is not None`), yet the
prompt is identical to the caption-free prompt — the bare screenshot base
template, which contains neither a `Specific request:` nor a `Context:`
section (checked concretely on the template with a staged-path string of
the managed layout). -/
theorem empty_caption_metadata (base : List String) (tok : String) (fs : FS)
    (bytes : List Nat) :
    (process_image base tok fs bytes (some "")).fst.metadata_has_caption = true
    ∧ (process_image base tok fs bytes (some "")).fst.prompt
        = (process_image base tok fs bytes none).fst.prompt
    ∧ (process_image base tok fs bytes (some "")).fst.prompt
        = screenshot_base
            (pathStr (save_to_temp_file base tok fs bytes (detect_format bytes)).fst)
    ∧ containsStr
        (screenshot_base "/srv/bot/temp/images/telegram_image_0123456789abcdef0123456789abcdef.png")
        "Specific request:" = false
    ∧ containsStr
        (screenshot_base "/srv/bot/temp/images/telegram_image_0123456789abcdef0123456789abcdef.png")
        "Context:" = false := by
  refine ⟨rfl, rfl, rfl, by decide, by decide⟩

set_option maxRecDepth 100000 in
/-- C1 fails on the code: `process_image` never invokes `validate_image`.
For the 50-byte PNG-prefixed buffer (which the validator rejects with the
source string "Invalid image data", the reason the claim expects), the
pipeline nevertheless stages the buffer into the managed directory and
returns a `ProcessedImage` carrying the staged path — evaluated here on an
initially empty filesystem with a concrete token and base. -/
theorem pipeline_stages_rejected_buffer :
    validate_image ([0x89, 0x50, 0x4E, 0x47] ++ List.replicate 46 0)
      = (false, some "Invalid image data")
    ∧ (process_image ["srv", "bot"] "0123456789abcdef0123456789abcdef" []
        ([0x89, 0x50, 0x4E, 0x47] ++ List.replicate 46 0) none).snd
      = [(⟨true, ["srv", "bot", "temp", "images",
            "telegram_image_0123456789abcdef0123456789abcdef.png"]⟩,
          [0x89, 0x50, 0x4E, 0x47] ++ List.replicate 46 0)]
    ∧ (process_image ["srv", "bot"] "0123456789abcdef0123456789abcdef" []
        ([0x89, 0x50, 0x4E, 0x47] ++ List.replicate 46 0) none).fst.file_path
      = some "/srv/bot/temp/images/telegram_image_0123456789abcdef0123456789abcdef.png" := by
  refine ⟨by decide, by decide, by decide⟩
